import Mathlib

/-!
Shallow embedding of the dex Docker-metrics collector (collector source file
with dynamic labels: the version whose `DockerCollector` carries a `labels`
field and logs through slog).  Go `uint64` values are modelled as `Nat`
together with explicit `% 2^64` wraparound where the source performs
machine-integer subtraction or accumulation.  Go `float64` computation is
modelled by `GoFloat`: an exact rational for finite values plus the IEEE
special values `inf`, `negInf` and `nan`, with division and multiplication
following the IEEE special-value rules (finite arithmetic is idealised as
exact rational arithmetic).  Channel sends become ordered lists of emitted
`Metric`s, slog calls become `LogEvent`s, and `os.Exit(1)` becomes an
`exited` flag on the result.  Runtime calls (inspect, stats, list) are
passed in as explicit `Except`-style inputs.
-/

/-- Model of a Go float64 value: exact rational when finite, plus the IEEE
special values.  Used for every value emitted on the metrics channel. -/
inductive GoFloat where
  | finite : ℚ → GoFloat
  | inf : GoFloat
  | negInf : GoFloat
  | nan : GoFloat
deriving DecidableEq

/-- IEEE-style multiplication on the float model (finite arithmetic exact). -/
def GoFloat.mul : GoFloat → GoFloat → GoFloat
  | .nan, _ => .nan
  | _, .nan => .nan
  | .finite a, .finite b => .finite (a * b)
  | .inf, .finite b => if b = 0 then .nan else if 0 < b then .inf else .negInf
  | .finite a, .inf => if a = 0 then .nan else if 0 < a then .inf else .negInf
  | .negInf, .finite b => if b = 0 then .nan else if 0 < b then .negInf else .inf
  | .finite a, .negInf => if a = 0 then .nan else if 0 < a then .negInf else .inf
  | .inf, .inf => .inf
  | .inf, .negInf => .negInf
  | .negInf, .inf => .negInf
  | .negInf, .negInf => .inf

/-- IEEE-style division on the float model: division by zero yields
`nan` for a zero numerator and a signed infinity otherwise. -/
def GoFloat.div : GoFloat → GoFloat → GoFloat
  | .nan, _ => .nan
  | _, .nan => .nan
  | .finite a, .finite b =>
      if b = 0 then (if a = 0 then .nan else if 0 < a then .inf else .negInf)
      else .finite (a / b)
  | .finite _, .inf => .finite 0
  | .finite _, .negInf => .finite 0
  | .inf, .finite b => if 0 ≤ b then .inf else .negInf
  | .negInf, .finite b => if 0 ≤ b then .negInf else .inf
  | .inf, .inf => .nan
  | .inf, .negInf => .nan
  | .negInf, .inf => .nan
  | .negInf, .negInf => .nan

/-- True exactly on finite float values. -/
def GoFloat.isFinite : GoFloat → Bool
  | .finite _ => true
  | _ => false

/-- Go uint64 subtraction `a - b` with wraparound modulo `2^64`
(meaningful under the invariant `a, b < 2^64`). -/
def goSub64 (a b : ℕ) : ℕ := (2 ^ 64 + a - b) % 2 ^ 64

/-- Go uint64 addition `a + b` with wraparound modulo `2^64`. -/
def goAdd64 (a b : ℕ) : ℕ := (a + b) % 2 ^ 64

/-- One enumerated container as returned by the list call
(`types.Container`): identity, name aliases, image data, command,
creation time and lifecycle state. -/
structure Container where
  id : String
  names : List String
  image : String
  imageID : String
  command : String
  created : Int
  state : String
deriving DecidableEq

/-- Nested cumulative CPU usage counters (`container.CPUUsage`). -/
structure CPUUsage where
  totalUsage : ℕ
deriving DecidableEq

/-- One CPU sub-snapshot (`container.CPUStats`). -/
structure CPUStats where
  cpuUsage : CPUUsage
  systemUsage : ℕ
  onlineCPUs : ℕ
deriving DecidableEq

/-- Memory snapshot (`container.MemoryStats`); the `stats` field is the
cgroup key/value map, modelled as an association list. -/
structure MemoryStats where
  usage : ℕ
  stats : List (String × ℕ)
  limit : ℕ
deriving DecidableEq

/-- Per-interface network counters (`container.NetworkStats`). -/
structure NetworkStats where
  rxBytes : ℕ
  txBytes : ℕ
deriving DecidableEq

/-- One operation-tagged block-I/O entry (`container.BlkioStatEntry`). -/
structure BlkioStatEntry where
  op : String
  value : ℕ
deriving DecidableEq

/-- Block-I/O section of the stats sample (`container.BlkioStats`). -/
structure BlkioStats where
  ioServiceBytesRecursive : List BlkioStatEntry
deriving DecidableEq

/-- Pid counters (`container.PidsStats`). -/
structure PidsStats where
  current : ℕ
deriving DecidableEq

/-- One decoded stats sample (`container.StatsResponse`); the networks map
is modelled as an association list from interface name to counters. -/
structure StatsResponse where
  cpuStats : CPUStats
  preCPUStats : CPUStats
  memoryStats : MemoryStats
  networks : List (String × NetworkStats)
  blkioStats : BlkioStats
  pidsStats : PidsStats
deriving DecidableEq

/-- Metric kinds used by the collector. -/
inductive MetricKind where
  | gauge : MetricKind
  | counter : MetricKind
deriving DecidableEq

/-- One emitted measurement: `prometheus.MustNewConstMetric` of a
`prometheus.NewDesc` plus the numeric value, reified as data. -/
structure Metric where
  name : String
  kind : MetricKind
  help : String
  labelNames : List String
  labelValues : List String
  value : GoFloat
deriving DecidableEq

/-- Log levels used by the collector (slog.Error / slog.Warn). -/
inductive LogLevel where
  | error : LogLevel
  | warn : LogLevel
deriving DecidableEq

/-- One structured log event. -/
structure LogEvent where
  level : LogLevel
  msg : String
deriving DecidableEq

/-- The collector state that matters to the claims: the configured
extra-label names (the client handle is replaced by explicit call inputs). -/
structure DockerCollector where
  labels : List String
deriving DecidableEq

/-- `var labelCname = []string{"container_name"}`. -/
def labelCname : List String := ["container_name"]

/-- Outcome of the stats call followed by the JSON decode of its body:
the call itself can fail, or the call succeeds and the decode fails
(leaving whatever partially-populated struct the decoder produced, the
zero value in the worst case), or both succeed. -/
inductive StatsFetch where
  | callError : String → StatsFetch
  | decodeError : String → StatsResponse → StatsFetch
  | ok : StatsResponse → StatsFetch
deriving DecidableEq

/-- Result of running a collector code path: the metrics sent on the
channel so far, the log events, and whether `os.Exit(1)` was reached. -/
structure ProcOutput where
  metrics : List Metric
  logs : List LogEvent
  exited : Bool
deriving DecidableEq

/-- `strings.TrimPrefix(s, "/")`: drop one leading slash if present. -/
def trimSlash (s : String) : String :=
  match s.data with
  | [] => s
  | c :: rest => if c = '/' then String.mk rest else s

/-- `getLabelValues`: the container name first, then one resolved value per
configured label; unknown labels yield an empty string plus a warning.
The slog.Warn side effect is reified as the second component. -/
def getLabelValues (c : DockerCollector) (cont : Container) (cName : String) :
    List String × List LogEvent :=
  c.labels.foldl (fun acc label =>
    match label with
    | "image" => (acc.1 ++ [cont.image], acc.2)
    | "image_id" => (acc.1 ++ [cont.id], acc.2)
    | "command" => (acc.1 ++ [cont.command], acc.2)
    | "created" => (acc.1 ++ [toString cont.created], acc.2)
    | _ => (acc.1 ++ [""],
            acc.2 ++ [⟨.warn, "label does not exist in container"⟩]))
  ([cName], [])

/-- `CPUMetrics`: unsigned-delta computation followed by float division and
multiplication, emitting the utilization gauge and the seconds counter. -/
def CPUMetrics (s : StatsResponse) (labelNames labelValues : List String) :
    List Metric :=
  let totalUsage := s.cpuStats.cpuUsage.totalUsage
  let cpuDelta := goSub64 totalUsage s.preCPUStats.cpuUsage.totalUsage
  let sysemDelta := goSub64 s.cpuStats.systemUsage s.preCPUStats.systemUsage
  let onlineCPUs := s.cpuStats.onlineCPUs
  let cpuUtilization :=
    ((GoFloat.div (.finite cpuDelta) (.finite sysemDelta)).mul
      (.finite onlineCPUs)).mul (.finite 100)
  [⟨"dex_cpu_utilization_percent", .gauge, "CPU utilization in percent",
      labelNames, labelValues, cpuUtilization⟩,
   ⟨"dex_cpu_utilization_seconds_total", .counter,
      "Cumulative CPU utilization in seconds", labelNames, labelValues,
      GoFloat.div (.finite totalUsage) (.finite 1000000000)⟩]

/-- `networkMetrics`: both counters are read directly from the map entry
for the fixed interface name eth0 (the Go zero value when absent). -/
def networkMetrics (s : StatsResponse) (labelNames labelValues : List String) :
    List Metric :=
  let eth0 := (s.networks.lookup "eth0").getD ⟨0, 0⟩
  [⟨"dex_network_rx_bytes_total", .counter, "Network received bytes total",
      labelNames, labelValues, .finite eth0.rxBytes⟩,
   ⟨"dex_network_tx_bytes_total", .counter, "Network sent bytes total",
      labelNames, labelValues, .finite eth0.txBytes⟩]

/-- `getCacheMemory`: cgroup-v2 inactive_file, else cgroup-v1
total_inactive_file, else the legacy cache field (0 when absent, the Go
map-read default). -/
def getCacheMemory (stats : List (String × ℕ)) : ℕ :=
  match stats.lookup "inactive_file" with
  | some val => val
  | none =>
    match stats.lookup "total_inactive_file" with
    | some val => val
    | none => (stats.lookup "cache").getD 0

/-- `memoryMetrics`: usage is the uint64 subtraction of the resolved cache
from the raw usage; utilization divides by the limit unguarded. -/
def memoryMetrics (s : StatsResponse) (labelNames labelValues : List String) :
    List Metric :=
  let memoryUsage := goSub64 s.memoryStats.usage (getCacheMemory s.memoryStats.stats)
  let memoryTotal := s.memoryStats.limit
  let memoryUtilization :=
    (GoFloat.div (.finite memoryUsage) (.finite memoryTotal)).mul (.finite 100)
  [⟨"dex_memory_usage_bytes", .counter, "Total memory usage bytes",
      labelNames, labelValues, .finite memoryUsage⟩,
   ⟨"dex_memory_total_bytes", .gauge, "Total memory bytes",
      labelNames, labelValues, .finite memoryTotal⟩,
   ⟨"dex_memory_utilization_percent", .gauge, "Memory utilization percent",
      labelNames, labelValues, memoryUtilization⟩]

/-- ASCII lower-casing of one character code. -/
def lowerCode (n : ℕ) : ℕ := if 65 ≤ n ∧ n ≤ 90 then n + 32 else n

/-- `strings.EqualFold`, modelled as equality of the ASCII-case-folded
character codes (the tags compared in this program are ASCII). -/
def eqFold (s t : String) : Bool :=
  (s.data.map fun c => lowerCode c.toNat) ==
    (t.data.map fun c => lowerCode c.toNat)

/-- The loop body of `blockIoMetrics`: case-insensitive tag match via
`strings.EqualFold` and uint64 accumulation. -/
def blkStep (acc : ℕ × ℕ) (b : BlkioStatEntry) : ℕ × ℕ :=
  let r := if eqFold b.op "read" then goAdd64 acc.1 b.value else acc.1
  let w := if eqFold b.op "write" then goAdd64 acc.2 b.value else acc.2
  (r, w)

/-- `blockIoMetrics`: fold the operation-tagged entries into the two
totals and emit them. -/
def blockIoMetrics (s : StatsResponse) (labelNames labelValues : List String) :
    List Metric :=
  let totals := s.blkioStats.ioServiceBytesRecursive.foldl blkStep (0, 0)
  [⟨"dex_block_io_read_bytes_total", .counter, "Block I/O read bytes",
      labelNames, labelValues, .finite totals.1⟩,
   ⟨"dex_block_io_write_bytes_total", .counter, "Block I/O write bytes",
      labelNames, labelValues, .finite totals.2⟩]

/-- `pidsMetrics`: the current pid count, emitted as a counter. -/
def pidsMetrics (s : StatsResponse) (labelNames labelValues : List String) :
    List Metric :=
  [⟨"dex_pids_current", .counter, "Current number of pids in the cgroup",
      labelNames, labelValues, .finite s.pidsStats.current⟩]

/-- The five derived-metric calls made, in source order, once a stats
sample is in hand. -/
def derivedMetrics (s : StatsResponse) (labelNames labelValues : List String) :
    List Metric :=
  blockIoMetrics s labelNames labelValues ++
  memoryMetrics s labelNames labelValues ++
  networkMetrics s labelNames labelValues ++
  CPUMetrics s labelNames labelValues ++
  pidsMetrics s labelNames labelValues

/-- `processContainer`: lifecycle gauges for every container, the restart
counter behind the inspect call (inspect failure reaches `os.Exit(1)`),
and, only for running containers, the stats fetch followed by the five
derived-metric groups.  A stats-call failure also reaches `os.Exit(1)`;
a decode failure is logged and the derivations proceed on the
partially-decoded struct. -/
def processContainer (c : DockerCollector) (cont : Container)
    (inspect : Except String ℕ) (fetch : StatsFetch) : ProcOutput :=
  let cName := trimSlash (String.intercalate ";" cont.names)
  let labelNames := labelCname ++ c.labels
  let lv := getLabelValues c cont cName
  let labelValues := lv.1
  let isRunning : ℚ := if cont.state = "running" then 1 else 0
  let isRestarting : ℚ := if cont.state = "restarting" then 1 else 0
  let isExited : ℚ := if cont.state = "exited" then 1 else 0
  let stateMetrics : List Metric :=
    [⟨"dex_container_running", .gauge,
        "1 if docker container is running, 0 otherwise",
        labelNames, labelValues, .finite isRunning⟩,
     ⟨"dex_container_restarting", .gauge,
        "1 if docker container is restarting, 0 otherwise",
        labelNames, labelValues, .finite isRestarting⟩,
     ⟨"dex_container_exited", .gauge,
        "1 if docker container exited, 0 otherwise",
        labelNames, labelValues, .finite isExited⟩]
  match inspect with
  | .error _ =>
      ⟨stateMetrics, lv.2 ++ [⟨.error, "container inspect failed"⟩], true⟩
  | .ok restartCount =>
    let base := stateMetrics ++
      [⟨"dex_container_restarts_total", .counter,
          "Number of times the container has restarted",
          labelNames, labelValues, .finite restartCount⟩]
    if isRunning = 1 then
      match fetch with
      | .callError _ =>
          ⟨base, lv.2 ++ [⟨.error, "container stats failed"⟩], true⟩
      | .decodeError _ partialStats =>
          ⟨base ++ derivedMetrics partialStats labelNames labelValues,
           lv.2 ++ [⟨.error, "cannot read api stats"⟩], false⟩
      | .ok st =>
          ⟨base ++ derivedMetrics st labelNames labelValues, lv.2, false⟩
    else ⟨base, lv.2, false⟩

/-- `Collect`: a failing container-list call is logged and aborts the
cycle with no output; otherwise every container is processed (the
concurrent fan-out is linearised in list order, which fixes one
interleaving of the channel sends). -/
def Collect (c : DockerCollector) (listResult : Except String (List Container))
    (env : Container → Except String ℕ × StatsFetch) : ProcOutput :=
  match listResult with
  | .error _ => ⟨[], [⟨.error, "cannot list containers"⟩], false⟩
  | .ok containers =>
      containers.foldl (fun acc cont =>
        let r := processContainer c cont (env cont).1 (env cont).2
        ⟨acc.metrics ++ r.metrics, acc.logs ++ r.logs, acc.exited || r.exited⟩)
        ⟨[], [], false⟩

/-- A zero-valued stats sample (Go zero value of the response struct). -/
def zeroStats : StatsResponse :=
  ⟨⟨⟨0⟩, 0, 0⟩, ⟨⟨0⟩, 0, 0⟩, ⟨0, [], 0⟩, [], ⟨[]⟩, ⟨0⟩⟩

/-! ## Helper lemmas -/

theorem goSub64_eq_sub (a b : ℕ) (ha : a < 2 ^ 64) (hba : b ≤ a) :
    goSub64 a b = a - b := by
  unfold goSub64
  omega

theorem goSub64_self (a : ℕ) : goSub64 a a = 0 := by
  unfold goSub64
  omega

theorem GoFloat.div_finite_of_ne (a b : ℚ) (hb : b ≠ 0) :
    GoFloat.div (.finite a) (.finite b) = .finite (a / b) := by
  simp [GoFloat.div, hb]

theorem GoFloat.mul_finite (a b : ℚ) :
    GoFloat.mul (.finite a) (.finite b) = .finite (a * b) := rfl

/-! ## Claim C2 -/

/-- Claim C2: for every stats sample (no wraparound, positive system
delta), the emitted cpu utilization gauge is exactly
(totalUsage − preTotalUsage) / (systemUsage − preSystemUsage)
multiplied by the online-CPU count and by 100, and the seconds counter is
totalUsage / 1e9. -/
theorem C2_cpu_derivation (s : StatsResponse) (ln lv : List String)
    (hcur : s.cpuStats.cpuUsage.totalUsage < 2 ^ 64)
    (hpre : s.preCPUStats.cpuUsage.totalUsage ≤ s.cpuStats.cpuUsage.totalUsage)
    (hsys : s.cpuStats.systemUsage < 2 ^ 64)
    (hpsys : s.preCPUStats.systemUsage < s.cpuStats.systemUsage) :
    CPUMetrics s ln lv =
      [⟨"dex_cpu_utilization_percent", .gauge, "CPU utilization in percent",
          ln, lv,
          .finite ((((s.cpuStats.cpuUsage.totalUsage -
              s.preCPUStats.cpuUsage.totalUsage : ℕ) : ℚ) /
            ((s.cpuStats.systemUsage - s.preCPUStats.systemUsage : ℕ) : ℚ)) *
            (s.cpuStats.onlineCPUs : ℚ) * 100)⟩,
       ⟨"dex_cpu_utilization_seconds_total", .counter,
          "Cumulative CPU utilization in seconds", ln, lv,
          .finite ((s.cpuStats.cpuUsage.totalUsage : ℚ) / 1000000000)⟩] := by
  have h1 : goSub64 s.cpuStats.cpuUsage.totalUsage
      s.preCPUStats.cpuUsage.totalUsage
      = s.cpuStats.cpuUsage.totalUsage - s.preCPUStats.cpuUsage.totalUsage :=
    goSub64_eq_sub _ _ hcur hpre
  have h2 : goSub64 s.cpuStats.systemUsage s.preCPUStats.systemUsage
      = s.cpuStats.systemUsage - s.preCPUStats.systemUsage :=
    goSub64_eq_sub _ _ hsys (le_of_lt hpsys)
  have hden : ((s.cpuStats.systemUsage - s.preCPUStats.systemUsage : ℕ) : ℚ) ≠ 0 :=
    Nat.cast_ne_zero.mpr (by omega)
  simp only [CPUMetrics, h1, h2]
  rw [GoFloat.div_finite_of_ne _ _ hden, GoFloat.mul_finite, GoFloat.mul_finite,
    GoFloat.div_finite_of_ne _ _ (by norm_num)]

/-- The CPU sample of Scenario 1 from the spec, with the other stat
groups zeroed. -/
def cpuScenario : StatsResponse :=
  ⟨⟨⟨1000000000⟩, 60000000000, 5⟩, ⟨⟨500000000⟩, 50000000000, 0⟩,
   ⟨0, [], 0⟩, [], ⟨[]⟩, ⟨0⟩⟩

/-- Witness for C2: on Scenario 1 the utilization gauge is 25.0 and the
seconds counter is 1.0. -/
theorem C2_cpu_derivation_witness :
    CPUMetrics cpuScenario ["container_name"] ["c0"] =
      [⟨"dex_cpu_utilization_percent", .gauge, "CPU utilization in percent",
          ["container_name"], ["c0"], .finite 25⟩,
       ⟨"dex_cpu_utilization_seconds_total", .counter,
          "Cumulative CPU utilization in seconds", ["container_name"], ["c0"],
          .finite 1⟩] := by
  have h := C2_cpu_derivation cpuScenario ["container_name"] ["c0"]
    (by decide) (by decide) (by decide) (by decide)
  rw [h]
  norm_num [cpuScenario, Metric.mk.injEq]

/-! ## Claim C3 -/

/-- A stats sample with zero CPU system-usage delta (equal system
counters), a positive cpu delta, and a zero memory limit. -/
def zeroDeltaScenario : StatsResponse :=
  ⟨⟨⟨500000000⟩, 7, 4⟩, ⟨⟨0⟩, 7, 0⟩, ⟨5, [], 0⟩, [], ⟨[]⟩, ⟨0⟩⟩

/-- Counterexample to C3: with a zero system delta the collector emits
positive infinity for dex_cpu_utilization_percent, and with a zero memory
limit it emits positive infinity for dex_memory_utilization_percent;
both are non-finite values. -/
theorem C3_counterexample :
    ((CPUMetrics zeroDeltaScenario ["container_name"] ["c0"]).map
        Metric.value).head? = some GoFloat.inf ∧
    ((memoryMetrics zeroDeltaScenario ["container_name"] ["c0"]).map
        Metric.value).getLast? = some GoFloat.inf ∧
    GoFloat.inf.isFinite = false := by
  refine ⟨?_, ?_, rfl⟩ <;>
    norm_num [CPUMetrics, memoryMetrics, zeroDeltaScenario, goSub64,
      getCacheMemory, GoFloat.div, GoFloat.mul]

/-- Claim C3 amended: with a zero CPU system delta or a zero memory
limit the deriver does not crash, but the affected utilization metric is
emitted as a non-finite value — NaN when the numerator (and, for CPU,
the online-CPU factor) vanishes, positive infinity otherwise. -/
theorem C3_amended (s : StatsResponse) (ln lv : List String) :
    (s.cpuStats.systemUsage = s.preCPUStats.systemUsage →
      ∃ v, ((CPUMetrics s ln lv).map Metric.value).head? = some v ∧
        v.isFinite = false ∧
        v = (if goSub64 s.cpuStats.cpuUsage.totalUsage
                s.preCPUStats.cpuUsage.totalUsage = 0 ∨
              s.cpuStats.onlineCPUs = 0
             then GoFloat.nan else GoFloat.inf)) ∧
    (s.memoryStats.limit = 0 →
      ∃ v, ((memoryMetrics s ln lv).map Metric.value).getLast? = some v ∧
        v.isFinite = false ∧
        v = (if goSub64 s.memoryStats.usage
                (getCacheMemory s.memoryStats.stats) = 0
             then GoFloat.nan else GoFloat.inf)) := by
  have hv : ∀ d cpus : ℕ,
      (((GoFloat.finite (d : ℚ)).div (GoFloat.finite 0)).mul
        (GoFloat.finite (cpus : ℚ))).mul (GoFloat.finite 100) =
      (if d = 0 ∨ cpus = 0 then GoFloat.nan else GoFloat.inf) := by
    intro d cpus
    by_cases hd : d = 0
    · simp [GoFloat.div, GoFloat.mul, hd]
    · by_cases hc : cpus = 0
      · simp [GoFloat.div, GoFloat.mul, hd, hc, Nat.pos_of_ne_zero hd]
      · simp [GoFloat.div, GoFloat.mul, hd, hc, Nat.pos_of_ne_zero hd,
          Nat.pos_of_ne_zero hc]
  have hu : ∀ u : ℕ,
      ((GoFloat.finite (u : ℚ)).div (GoFloat.finite 0)).mul
        (GoFloat.finite 100) =
      (if u = 0 then GoFloat.nan else GoFloat.inf) := by
    intro u
    by_cases hd : u = 0
    · simp [GoFloat.div, GoFloat.mul, hd]
    · simp [GoFloat.div, GoFloat.mul, hd, Nat.pos_of_ne_zero hd]
  have hfin : ∀ p : Prop, ∀ inst : Decidable p,
      (if p then GoFloat.nan else GoFloat.inf).isFinite = false := by
    intro p inst
    by_cases hp : p <;> simp [hp, GoFloat.isFinite]
  constructor
  · intro h
    refine ⟨_, ?_, hfin _ _, rfl⟩
    simp only [CPUMetrics, h, goSub64_self, Nat.cast_zero, List.map_cons,
      List.head?_cons]
    rw [hv]
  · intro h
    refine ⟨_, ?_, hfin _ _, rfl⟩
    simp only [memoryMetrics, h, Nat.cast_zero, List.map_cons, List.map_nil,
      List.getLast?_cons_cons, List.getLast?_singleton]
    rw [hu]

/-- Witness for the amended C3 at the concrete zero-delta, zero-limit
sample: both hypotheses hold and both emitted values are infinite. -/
theorem C3_amended_witness :
    zeroDeltaScenario.cpuStats.systemUsage =
        zeroDeltaScenario.preCPUStats.systemUsage ∧
    zeroDeltaScenario.memoryStats.limit = 0 ∧
    (∃ v, ((CPUMetrics zeroDeltaScenario ["container_name"] ["c0"]).map
        Metric.value).head? = some v ∧ v.isFinite = false ∧
        v = (if goSub64 zeroDeltaScenario.cpuStats.cpuUsage.totalUsage
                zeroDeltaScenario.preCPUStats.cpuUsage.totalUsage = 0 ∨
              zeroDeltaScenario.cpuStats.onlineCPUs = 0
             then GoFloat.nan else GoFloat.inf)) ∧
    (∃ v, ((memoryMetrics zeroDeltaScenario ["container_name"] ["c0"]).map
        Metric.value).getLast? = some v ∧ v.isFinite = false ∧
        v = (if goSub64 zeroDeltaScenario.memoryStats.usage
                (getCacheMemory zeroDeltaScenario.memoryStats.stats) = 0
             then GoFloat.nan else GoFloat.inf)) := by
  have h := C3_amended zeroDeltaScenario ["container_name"] ["c0"]
  exact ⟨rfl, rfl, h.1 rfl, h.2 rfl⟩

/-! ## Claim C4 -/

/-- Claim C4: for every memory sample without wraparound, the usage metric
is rawUsage minus the resolved cache, the resolved cache follows the
priority inactive_file, then total_inactive_file, then the legacy cache
field (0 when absent), and for a positive limit the utilization gauge is
usage divided by limit times 100. -/
theorem C4_memory_derivation (s : StatsResponse) (ln lv : List String)
    (husage : s.memoryStats.usage < 2 ^ 64)
    (hcache : getCacheMemory s.memoryStats.stats ≤ s.memoryStats.usage)
    (hlimit : 0 < s.memoryStats.limit) :
    memoryMetrics s ln lv =
      [⟨"dex_memory_usage_bytes", .counter, "Total memory usage bytes",
          ln, lv,
          .finite ((s.memoryStats.usage -
            getCacheMemory s.memoryStats.stats : ℕ) : ℚ)⟩,
       ⟨"dex_memory_total_bytes", .gauge, "Total memory bytes", ln, lv,
          .finite (s.memoryStats.limit : ℚ)⟩,
       ⟨"dex_memory_utilization_percent", .gauge,
          "Memory utilization percent", ln, lv,
          .finite (((s.memoryStats.usage -
              getCacheMemory s.memoryStats.stats : ℕ) : ℚ) /
            (s.memoryStats.limit : ℚ) * 100)⟩] ∧
    (∀ v, s.memoryStats.stats.lookup "inactive_file" = some v →
        getCacheMemory s.memoryStats.stats = v) ∧
    (∀ v, s.memoryStats.stats.lookup "inactive_file" = none →
        s.memoryStats.stats.lookup "total_inactive_file" = some v →
        getCacheMemory s.memoryStats.stats = v) ∧
    (s.memoryStats.stats.lookup "inactive_file" = none →
        s.memoryStats.stats.lookup "total_inactive_file" = none →
        getCacheMemory s.memoryStats.stats =
          (s.memoryStats.stats.lookup "cache").getD 0) := by
  refine ⟨?_, ?_, ?_, ?_⟩
  · have hsub := goSub64_eq_sub _ _ husage hcache
    have hden : ((s.memoryStats.limit : ℕ) : ℚ) ≠ 0 :=
      Nat.cast_ne_zero.mpr (by omega)
    simp only [memoryMetrics, hsub]
    rw [GoFloat.div_finite_of_ne _ _ hden, GoFloat.mul_finite]
  · intro v hv
    simp [getCacheMemory, hv]
  · intro v h1 h2
    simp [getCacheMemory, h1, h2]
  · intro h1 h2
    simp [getCacheMemory, h1, h2]

/-- The memory sample of Scenario 2 from the spec: usage 800 MiB, limit
1024 MiB, legacy cache field 200 MiB. -/
def memScenario : StatsResponse :=
  ⟨⟨⟨0⟩, 0, 0⟩, ⟨⟨0⟩, 0, 0⟩,
   ⟨838860800, [("cache", 209715200)], 1073741824⟩, [], ⟨[]⟩, ⟨0⟩⟩

/-- Witness for C4 on Scenario 2: usage 600 MiB and utilization
58.59375 percent. -/
theorem C4_memory_derivation_witness :
    memoryMetrics memScenario ["container_name"] ["c0"] =
      [⟨"dex_memory_usage_bytes", .counter, "Total memory usage bytes",
          ["container_name"], ["c0"], .finite 629145600⟩,
       ⟨"dex_memory_total_bytes", .gauge, "Total memory bytes",
          ["container_name"], ["c0"], .finite 1073741824⟩,
       ⟨"dex_memory_utilization_percent", .gauge,
          "Memory utilization percent", ["container_name"], ["c0"],
          .finite (1875 / 32)⟩] := by
  have h := C4_memory_derivation memScenario ["container_name"] ["c0"]
    (by decide) (by decide) (by decide)
  rw [h.1]
  have hc : getCacheMemory [("cache", 209715200)] = 209715200 := by decide
  norm_num [memScenario, hc, Metric.mk.injEq]

/-! ## Claim C5 -/

theorem blkFoldAux (l : List BlkioStatEntry) (a b : ℕ)
    (ha : a < 2 ^ 64) (hb : b < 2 ^ 64) :
    l.foldl blkStep (a, b) =
      ((a + ((l.filter fun e => eqFold e.op "read").map
          BlkioStatEntry.value).sum) % 2 ^ 64,
       (b + ((l.filter fun e => eqFold e.op "write").map
          BlkioStatEntry.value).sum) % 2 ^ 64) := by
  induction l generalizing a b with
  | nil =>
    simp only [List.foldl_nil, List.filter_nil, List.map_nil, List.sum_nil,
      Nat.add_zero, Prod.mk.injEq]
    omega
  | cons e t ih =>
    have hM : 0 < 2 ^ 64 := by norm_num
    by_cases hr : eqFold e.op "read" = true
    · by_cases hw : eqFold e.op "write" = true
      · simp only [List.foldl_cons, blkStep, hr, hw, if_true,
          List.filter_cons, List.map_cons, List.sum_cons]
        rw [ih (goAdd64 a e.value) (goAdd64 b e.value)
          (Nat.mod_lt _ hM) (Nat.mod_lt _ hM)]
        simp [goAdd64, Nat.mod_add_mod, Nat.add_assoc]
      · simp only [List.foldl_cons, blkStep, hr, hw, if_true, if_false,
          Bool.false_eq_true, List.filter_cons, List.map_cons, List.sum_cons]
        rw [ih (goAdd64 a e.value) b (Nat.mod_lt _ hM) hb]
        simp [goAdd64, Nat.mod_add_mod, Nat.add_assoc]
    · by_cases hw : eqFold e.op "write" = true
      · simp only [List.foldl_cons, blkStep, hr, hw, if_true, if_false,
          Bool.false_eq_true, List.filter_cons, List.map_cons, List.sum_cons]
        rw [ih a (goAdd64 b e.value) ha (Nat.mod_lt _ hM)]
        simp [goAdd64, Nat.mod_add_mod, Nat.add_assoc]
      · simp only [List.foldl_cons, blkStep, hr, hw, if_false,
          Bool.false_eq_true, List.filter_cons]
        exact ih a b ha hb

/-- Claim C5: for every block-I/O entry list whose per-tag sums fit in
uint64, the read counter is the sum of values whose operation tag
case-insensitively equals read, the write counter the sum over write,
and entries with any other tag contribute to neither. -/
theorem C5_blkio_totals (s : StatsResponse) (ln lv : List String)
    (hr : ((s.blkioStats.ioServiceBytesRecursive.filter
        fun e => eqFold e.op "read").map BlkioStatEntry.value).sum < 2 ^ 64)
    (hw : ((s.blkioStats.ioServiceBytesRecursive.filter
        fun e => eqFold e.op "write").map BlkioStatEntry.value).sum < 2 ^ 64) :
    blockIoMetrics s ln lv =
      [⟨"dex_block_io_read_bytes_total", .counter, "Block I/O read bytes",
          ln, lv,
          .finite (((s.blkioStats.ioServiceBytesRecursive.filter
            fun e => eqFold e.op "read").map BlkioStatEntry.value).sum : ℚ)⟩,
       ⟨"dex_block_io_write_bytes_total", .counter, "Block I/O write bytes",
          ln, lv,
          .finite (((s.blkioStats.ioServiceBytesRecursive.filter
            fun e => eqFold e.op "write").map BlkioStatEntry.value).sum : ℚ)⟩] := by
  simp only [blockIoMetrics]
  rw [blkFoldAux _ 0 0 (by norm_num) (by norm_num)]
  simp only [Nat.zero_add]
  rw [Nat.mod_eq_of_lt hr, Nat.mod_eq_of_lt hw]

/-- The block-I/O entry list of Scenario 3 from the spec. -/
def blkScenario : StatsResponse :=
  ⟨⟨⟨0⟩, 0, 0⟩, ⟨⟨0⟩, 0, 0⟩, ⟨0, [], 0⟩, [],
   ⟨[⟨"Read", 1000⟩, ⟨"Write", 2000⟩, ⟨"Read", 500⟩, ⟨"Total", 4500⟩]⟩, ⟨0⟩⟩

/-- Witness for C5 on Scenario 3: read total 1500, write total 2000, the
Total entry ignored. -/
theorem C5_blkio_totals_witness :
    blockIoMetrics blkScenario ["container_name"] ["c0"] =
      [⟨"dex_block_io_read_bytes_total", .counter, "Block I/O read bytes",
          ["container_name"], ["c0"], .finite 1500⟩,
       ⟨"dex_block_io_write_bytes_total", .counter, "Block I/O write bytes",
          ["container_name"], ["c0"], .finite 2000⟩] := by
  have hsr : ((blkScenario.blkioStats.ioServiceBytesRecursive.filter
      fun e => eqFold e.op "read").map BlkioStatEntry.value).sum = 1500 := by
    decide
  have hsw : ((blkScenario.blkioStats.ioServiceBytesRecursive.filter
      fun e => eqFold e.op "write").map BlkioStatEntry.value).sum = 2000 := by
    decide
  have h := C5_blkio_totals blkScenario ["container_name"] ["c0"]
    (by decide) (by decide)
  rw [h, hsr, hsw]
  norm_num

/-! ## Claim C6 -/

/-- A stats sample reporting two network interfaces. -/
def twoIfaceScenario : StatsResponse :=
  ⟨⟨⟨0⟩, 0, 0⟩, ⟨⟨0⟩, 0, 0⟩, ⟨0, [], 0⟩,
   [("eth0", ⟨10, 1⟩), ("eth1", ⟨20, 2⟩)], ⟨[]⟩, ⟨0⟩⟩

/-- Counterexample to C6: with interfaces eth0 (rx 10) and eth1 (rx 20)
present, the emitted receive counter is 10, not the all-interface
sum 30. -/
theorem C6_counterexample :
    ((networkMetrics twoIfaceScenario ["container_name"] ["c0"]).map
        Metric.value).head? = some (GoFloat.finite 10) ∧
    (twoIfaceScenario.networks.map fun p => p.2.rxBytes).sum = 30 ∧
    GoFloat.finite 10 ≠ GoFloat.finite 30 := by
  refine ⟨?_, by decide, ?_⟩
  · norm_num [networkMetrics, twoIfaceScenario, List.lookup]
  · simp only [ne_eq, GoFloat.finite.injEq]
    norm_num

/-- Claim C6 amended: the collector reads the receive and transmit
counters directly from the eth0 map entry regardless of any other
interfaces; this agrees with the all-interface sums exactly when eth0 is
the only reported interface, and a sample with no eth0 entry yields the
zero-value counters without panicking. -/
theorem C6_network_amended (s : StatsResponse) (ln lv : List String) :
    ((networkMetrics s ln lv).map Metric.value) =
      [.finite (((s.networks.lookup "eth0").getD ⟨0, 0⟩).rxBytes : ℚ),
       .finite (((s.networks.lookup "eth0").getD ⟨0, 0⟩).txBytes : ℚ)] ∧
    (∀ n : NetworkStats, s.networks = [("eth0", n)] →
      ((networkMetrics s ln lv).map Metric.value) =
        [.finite ((s.networks.map fun p => p.2.rxBytes).sum : ℚ),
         .finite ((s.networks.map fun p => p.2.txBytes).sum : ℚ)]) ∧
    (s.networks.lookup "eth0" = none →
      ((networkMetrics s ln lv).map Metric.value) =
        [.finite 0, .finite 0]) := by
  refine ⟨rfl, ?_, ?_⟩
  · intro n hn
    simp [networkMetrics, hn, List.lookup]
  · intro hn
    simp [networkMetrics, hn]

/-- A stats sample whose only interface is eth0. -/
def oneIfaceScenario : StatsResponse :=
  ⟨⟨⟨0⟩, 0, 0⟩, ⟨⟨0⟩, 0, 0⟩, ⟨0, [], 0⟩, [("eth0", ⟨10, 1⟩)], ⟨[]⟩, ⟨0⟩⟩

/-- A stats sample with no eth0 entry. -/
def noEthScenario : StatsResponse :=
  ⟨⟨⟨0⟩, 0, 0⟩, ⟨⟨0⟩, 0, 0⟩, ⟨0, [], 0⟩, [("wlan0", ⟨20, 2⟩)], ⟨[]⟩, ⟨0⟩⟩

/-- Witness for the amended C6: with eth0 the sole interface the
counters equal the all-interface sums, and with eth0 absent both
counters are zero. -/
theorem C6_network_amended_witness :
    ((networkMetrics oneIfaceScenario ["container_name"] ["c0"]).map
        Metric.value) =
      [.finite ((oneIfaceScenario.networks.map fun p => p.2.rxBytes).sum : ℚ),
       .finite ((oneIfaceScenario.networks.map fun p => p.2.txBytes).sum : ℚ)] ∧
    ((networkMetrics noEthScenario ["container_name"] ["c0"]).map
        Metric.value) = [.finite 0, .finite 0] :=
  ⟨(C6_network_amended oneIfaceScenario ["container_name"] ["c0"]).2.1
      ⟨10, 1⟩ rfl,
   (C6_network_amended noEthScenario ["container_name"] ["c0"]).2.2
      (by decide)⟩

/-! ## Claim C7 -/

/-- A container whose container ID and image ID differ. -/
def imgCont : Container :=
  ⟨"abc123456", ["/web"], "nginx:latest", "sha256:feedface", "nginx -g",
   1700000000, "running"⟩

/-- Claim C7 divergence, evaluated on the code: with the extra label
image_id configured, the resolved label value is the container ID, not
the image ID of the container, contradicting the specified mapping; the
two identifiers differ on this input. -/
theorem C7_image_id_divergence :
    (getLabelValues ⟨["image_id"]⟩ imgCont "web").1 = ["web", "abc123456"] ∧
    imgCont.imageID = "sha256:feedface" ∧
    ("abc123456" : String) ≠ "sha256:feedface" := by
  exact ⟨by decide, rfl, by decide⟩

/-! ## Claim C9 -/

/-- Claim C9: when the container-list call fails, the whole collection
cycle aborts with zero emitted measurements, one logged error, and no
process exit. -/
theorem C9_list_failure (c : DockerCollector) (e : String)
    (env : Container → Except String ℕ × StatsFetch) :
    Collect c (.error e) env =
      ⟨[], [⟨.error, "cannot list containers"⟩], false⟩ := rfl

/-- Witness for C9 at a concrete collector and error. -/
theorem C9_list_failure_witness :
    Collect ⟨[]⟩ (.error "connection refused") (fun _ => (.ok 0, .ok zeroStats)) =
      ⟨[], [⟨.error, "cannot list containers"⟩], false⟩ :=
  C9_list_failure ⟨[]⟩ "connection refused" (fun _ => (.ok 0, .ok zeroStats))

/-! ## Claim C1 -/

/-- A running container used for the C1 analysis. -/
def runCont : Container :=
  ⟨"abc", ["/web"], "img", "sha256:1", "run", 5, "running"⟩

/-- Counterexample to C1: for a running container a stats-call failure
reaches os.Exit(1), so the process terminates; and a JSON-decode failure
does not short-circuit the derivations — the CPU utilization metric,
among others, is still emitted from the partially-decoded struct. -/
theorem C1_counterexample :
    (processContainer ⟨[]⟩ runCont (.ok 2) (.callError "boom")).exited = true ∧
    (((processContainer ⟨[]⟩ runCont (.ok 2)
          (.decodeError "bad" zeroStats)).metrics.map Metric.name).contains
        "dex_cpu_utilization_percent") = true := by
  exact ⟨rfl, by decide⟩

/-- The names of the four lifecycle metrics, in emission order. -/
def lifecycleNames : List String :=
  ["dex_container_running", "dex_container_restarting",
   "dex_container_exited", "dex_container_restarts_total"]

/-- The names of the ten derived metrics, in emission order. -/
def derivedNames : List String :=
  ["dex_block_io_read_bytes_total", "dex_block_io_write_bytes_total",
   "dex_memory_usage_bytes", "dex_memory_total_bytes",
   "dex_memory_utilization_percent", "dex_network_rx_bytes_total",
   "dex_network_tx_bytes_total", "dex_cpu_utilization_percent",
   "dex_cpu_utilization_seconds_total", "dex_pids_current"]

/-- Claim C1 amended: for a running container, a stats-call failure is
logged and reaches os.Exit(1) — the process terminates, with only the
lifecycle and restart metrics emitted before the exit; a JSON-decode
failure is logged and does not short-circuit: the collector continues
and emits all ten derived metrics computed from the partially-decoded
(in the worst case zero-valued) struct, after the retained lifecycle and
restart metrics. -/
theorem C1_amended (c : DockerCollector) (cont : Container) (rc : ℕ)
    (e msg : String) (ps : StatsResponse) (hrun : cont.state = "running") :
    ((processContainer c cont (.ok rc) (.callError e)).exited = true ∧
     (processContainer c cont (.ok rc) (.callError e)).metrics.map
         Metric.name = lifecycleNames ∧
     (⟨.error, "container stats failed"⟩ : LogEvent) ∈
       (processContainer c cont (.ok rc) (.callError e)).logs) ∧
    ((processContainer c cont (.ok rc) (.decodeError msg ps)).exited = false ∧
     (processContainer c cont (.ok rc) (.decodeError msg ps)).metrics.map
         Metric.name = lifecycleNames ++ derivedNames ∧
     (⟨.error, "cannot read api stats"⟩ : LogEvent) ∈
       (processContainer c cont (.ok rc) (.decodeError msg ps)).logs) := by
  simp [processContainer, hrun, derivedMetrics, blockIoMetrics, memoryMetrics,
    networkMetrics, CPUMetrics, pidsMetrics, lifecycleNames, derivedNames]

/-- Witness for the amended C1 at a concrete running container. -/
theorem C1_amended_witness :
    ((processContainer ⟨[]⟩ runCont (.ok 2) (.callError "boom")).exited = true ∧
     (processContainer ⟨[]⟩ runCont (.ok 2) (.callError "boom")).metrics.map
         Metric.name = lifecycleNames ∧
     (⟨.error, "container stats failed"⟩ : LogEvent) ∈
       (processContainer ⟨[]⟩ runCont (.ok 2) (.callError "boom")).logs) ∧
    ((processContainer ⟨[]⟩ runCont (.ok 2)
          (.decodeError "bad" zeroStats)).exited = false ∧
     (processContainer ⟨[]⟩ runCont (.ok 2)
          (.decodeError "bad" zeroStats)).metrics.map Metric.name =
       lifecycleNames ++ derivedNames ∧
     (⟨.error, "cannot read api stats"⟩ : LogEvent) ∈
       (processContainer ⟨[]⟩ runCont (.ok 2)
          (.decodeError "bad" zeroStats)).logs) :=
  C1_amended ⟨[]⟩ runCont 2 "boom" "bad" zeroStats rfl

/-! ## Claim C8 -/

/-- Claim C8: every container whose inspect call succeeds gets exactly
the three lifecycle gauges — 1.0/0.0 encodings of comparing the one
state string against running, restarting and exited, hence mutually
exclusive (their sum is at most one) — followed by the restart counter,
at the head of its emission; and an exited container gets exactly those
four metrics and nothing else, in particular no CPU, memory, network,
block-I/O or pids metrics. -/
theorem C8_lifecycle (c : DockerCollector) (cont : Container) (rc : ℕ)
    (sf : StatsFetch) :
    (∃ rest, (processContainer c cont (.ok rc) sf).metrics =
      ⟨"dex_container_running", .gauge,
          "1 if docker container is running, 0 otherwise",
          labelCname ++ c.labels,
          (getLabelValues c cont
            (trimSlash (String.intercalate ";" cont.names))).1,
          .finite (if cont.state = "running" then 1 else 0)⟩ ::
      ⟨"dex_container_restarting", .gauge,
          "1 if docker container is restarting, 0 otherwise",
          labelCname ++ c.labels,
          (getLabelValues c cont
            (trimSlash (String.intercalate ";" cont.names))).1,
          .finite (if cont.state = "restarting" then 1 else 0)⟩ ::
      ⟨"dex_container_exited", .gauge,
          "1 if docker container exited, 0 otherwise",
          labelCname ++ c.labels,
          (getLabelValues c cont
            (trimSlash (String.intercalate ";" cont.names))).1,
          .finite (if cont.state = "exited" then 1 else 0)⟩ ::
      ⟨"dex_container_restarts_total", .counter,
          "Number of times the container has restarted",
          labelCname ++ c.labels,
          (getLabelValues c cont
            (trimSlash (String.intercalate ";" cont.names))).1,
          .finite (rc : ℚ)⟩ :: rest) ∧
    ((if cont.state = "running" then (1 : ℚ) else 0) +
      (if cont.state = "restarting" then (1 : ℚ) else 0) +
      (if cont.state = "exited" then (1 : ℚ) else 0) ≤ 1) ∧
    (cont.state = "exited" →
      (processContainer c cont (.ok rc) sf).metrics.map
          (fun m => (m.name, m.value)) =
        [("dex_container_running", GoFloat.finite 0),
         ("dex_container_restarting", GoFloat.finite 0),
         ("dex_container_exited", GoFloat.finite 1),
         ("dex_container_restarts_total", GoFloat.finite rc)]) := by
  refine ⟨?_, ?_, ?_⟩
  · by_cases hr : cont.state = "running"
    · cases sf with
      | callError e =>
        exact ⟨[], by simp [processContainer, hr]⟩
      | decodeError m ps =>
        exact ⟨derivedMetrics ps (labelCname ++ c.labels)
          (getLabelValues c cont
            (trimSlash (String.intercalate ";" cont.names))).1,
          by simp [processContainer, hr]⟩
      | ok st =>
        exact ⟨derivedMetrics st (labelCname ++ c.labels)
          (getLabelValues c cont
            (trimSlash (String.intercalate ";" cont.names))).1,
          by simp [processContainer, hr]⟩
    · exact ⟨[], by simp [processContainer, hr]⟩
  · by_cases h1 : cont.state = "running"
    · have h2 : ¬ cont.state = "restarting" := by rw [h1]; decide
      have h3 : ¬ cont.state = "exited" := by rw [h1]; decide
      simp [h1, h2, h3]
    · by_cases h2 : cont.state = "restarting"
      · rw [h2]
        simp
      · by_cases h3 : cont.state = "exited"
        · rw [h3]
          simp
        · simp [h1, h2, h3]
  · intro hx
    have hr : ¬ cont.state = "running" := by rw [hx]; decide
    cases sf <;> simp [processContainer, hx, hr]

/-- An exited container. -/
def exitCont : Container :=
  ⟨"e1", ["/db"], "img2", "sha256:2", "cmd", 6, "exited"⟩

/-- Witness for C8 at a concrete exited container: exactly the four
lifecycle and restart metrics, with running 0, restarting 0, exited 1. -/
theorem C8_lifecycle_witness :
    (processContainer ⟨[]⟩ exitCont (.ok 7) (.ok zeroStats)).metrics.map
        (fun m => (m.name, m.value)) =
      [("dex_container_running", GoFloat.finite 0),
       ("dex_container_restarting", GoFloat.finite 0),
       ("dex_container_exited", GoFloat.finite 1),
       ("dex_container_restarts_total", GoFloat.finite 7)] :=
  (C8_lifecycle ⟨[]⟩ exitCont 7 (.ok zeroStats)).2.2 rfl

/-! ## Claim C10 -/

/-- Claim C10: when the resolved cache exceeds the raw usage, the uint64
subtraction wraps: the emitted usage value is rawUsage minus cache
modulo 2^64 — equal to 2^64 + rawUsage − cache, an enormous positive
value strictly larger than the raw usage itself, not a negative or
zero-clamped one. -/
theorem C10_memory_wraparound (s : StatsResponse) (ln lv : List String)
    (hu : s.memoryStats.usage < 2 ^ 64)
    (hc : getCacheMemory s.memoryStats.stats < 2 ^ 64)
    (hgt : s.memoryStats.usage < getCacheMemory s.memoryStats.stats) :
    ((memoryMetrics s ln lv).head?) = some
      ⟨"dex_memory_usage_bytes", .counter, "Total memory usage bytes",
        ln, lv,
        .finite ((2 ^ 64 + s.memoryStats.usage -
          getCacheMemory s.memoryStats.stats : ℕ) : ℚ)⟩ ∧
    ((s.memoryStats.usage : ℤ) - getCacheMemory s.memoryStats.stats) %
        2 ^ 64 =
      ((2 ^ 64 + s.memoryStats.usage -
        getCacheMemory s.memoryStats.stats : ℕ) : ℤ) ∧
    s.memoryStats.usage <
      2 ^ 64 + s.memoryStats.usage - getCacheMemory s.memoryStats.stats := by
  have hs : goSub64 s.memoryStats.usage (getCacheMemory s.memoryStats.stats) =
      2 ^ 64 + s.memoryStats.usage - getCacheMemory s.memoryStats.stats := by
    unfold goSub64
    omega
  refine ⟨?_, by omega, by omega⟩
  simp only [memoryMetrics, hs, List.head?_cons]

/-- A memory sample whose resolved cache (legacy field) exceeds the raw
usage. -/
def wrapScenario : StatsResponse :=
  ⟨⟨⟨0⟩, 0, 0⟩, ⟨⟨0⟩, 0, 0⟩, ⟨100, [("cache", 250)], 1024⟩, [], ⟨[]⟩, ⟨0⟩⟩

/-- Witness for C10: usage 100, cache 250 gives the wrapped value
2^64 − 150 = 18446744073709551466. -/
theorem C10_memory_wraparound_witness :
    ((memoryMetrics wrapScenario ["container_name"] ["c0"]).head?) = some
      ⟨"dex_memory_usage_bytes", .counter, "Total memory usage bytes",
        ["container_name"], ["c0"], .finite 18446744073709551466⟩ ∧
    ((100 : ℤ) - 250) % 2 ^ 64 = 18446744073709551466 := by
  have h := C10_memory_wraparound wrapScenario ["container_name"] ["c0"]
    (by decide) (by decide) (by decide)
  have hval : getCacheMemory [("cache", 250)] = 250 := by decide
  refine ⟨?_, by decide⟩
  rw [h.1]
  norm_num [wrapScenario, hval, Metric.mk.injEq]
